import Mathlib

/-!
# Verification of the Sora-2 video generation pipeline script

A shallow embedding of `src/_main.py`: a sequential pipeline that submits a
video-generation request to a remote service, polls the job status until a
terminal state is reached, and downloads the resulting artifact.

The remote service (the `client.videos.*` calls) is modelled as an oracle
record `RemoteService`; each operation may return a value or fail with an
error (a Python exception).  The polling loop is embedded with explicit fuel:
`none` as first component of the result means the loop did not terminate
within the given fuel.  Observable effects (remote status retrievals and
fixed-duration sleeps) are recorded in an event trace.
-/

deriving instance DecidableEq for Except

namespace Sora2

/-- Errors raised by the pipeline stages (Python exceptions), named after the
spec's error taxonomy. -/
inductive Err where
  | configurationError (msg : String)
  | requestError (msg : String)
  | transientRemoteError (msg : String)
  | downloadError (msg : String)
deriving DecidableEq, Repr

/-- A Job snapshot, as returned by the remote service (`video` objects in the
source). -/
structure Video where
  id : String
  status : String
  model : String := ""
  created_at : Nat := 0
  error : Option String := none
  failure_reason : Option String := none
deriving DecidableEq, Repr

/-- The terminal status set from line 108 of the source:
`["completed", "failed", "cancelled"]`. -/
def terminalStatuses : List String := ["completed", "failed", "cancelled"]

/-- The remote service oracle.  `retrieve id n` is the snapshot returned by
the n-th retrieval call (0-indexed) for the given job id; successive calls may
observe different statuses. -/
structure RemoteService where
  create : Except Err Video
  retrieve : String → Nat → Except Err Video
  download_content : String → Except Err Unit

/-- Observable effects of the poller: one remote status retrieval, or one
sleep of the given duration (seconds). -/
inductive Event where
  | retrieve
  | sleep (duration : Nat)
deriving DecidableEq, Repr

def isRetrieve : Event → Bool
  | Event.retrieve => true
  | Event.sleep _ => false

def isSleep : Event → Bool
  | Event.retrieve => false
  | Event.sleep _ => true

def countRetrieves (evs : List Event) : Nat := (evs.filter isRetrieve).length

def countSleeps (evs : List Event) : Nat := (evs.filter isSleep).length

/-- The fixed polling interval (`poll_interval = 10`, line 102). -/
def poll_interval : Nat := 10

/-- One execution of the `while` loop body of `wait_for_completion`
(lines 108-114).  Returns `none` when the loop condition fails (the current
status is terminal) and the loop exits; otherwise the body sleeps
`poll_interval` seconds and then retrieves the latest snapshot (in that
order), which may itself fail with an exception. -/
def loopBody (svc : RemoteService) (video_id : String) (v : Video) (k : Nat) :
    Option (Except Err Video × List Event) :=
  if v.status ∈ terminalStatuses then none
  else
    match svc.retrieve video_id k with
    | Except.error e => some (Except.error e, [Event.sleep poll_interval, Event.retrieve])
    | Except.ok v' => some (Except.ok v', [Event.sleep poll_interval, Event.retrieve])

/-- The polling loop of `wait_for_completion`, with fuel bounding the number
of loop iterations that are run.  First component: `none` if the fuel ran out
with the loop still going, `some (Except.error e)` if a retrieval raised,
`some (Except.ok v)` if the loop exited with final snapshot `v`.  Second
component: the trace of events performed. -/
def pollLoop (svc : RemoteService) (video_id : String) :
    Nat → Video → Nat → Option (Except Err Video) × List Event
  | fuel, v, k =>
    match loopBody svc video_id v k with
    | none => (some (Except.ok v), [])
    | some (Except.error e, evs) => (some (Except.error e), evs)
    | some (Except.ok v', evs) =>
      match fuel with
      | 0 => (none, evs)
      | fuel' + 1 =>
        let r := pollLoop svc video_id fuel' v' (k + 1)
        (r.1, evs ++ r.2)

/-- `wait_for_completion` (lines 90-133): performs the unconditional initial
retrieval (line 105) and then runs the polling loop, returning the final Job
snapshot. -/
def wait_for_completion (svc : RemoteService) (fuel : Nat) (video_id : String) :
    Option (Except Err Video) × List Event :=
  match svc.retrieve video_id 0 with
  | Except.error e => (some (Except.error e), [Event.retrieve])
  | Except.ok v =>
    let r := pollLoop svc video_id fuel v 1
    (r.1, Event.retrieve :: r.2)

/-- `generate_video` (lines 61-87): calls the remote creation endpoint once
and returns the Job snapshot unchanged (the prints are not modelled). -/
def generate_video (svc : RemoteService) : Except Err Video :=
  svc.create

/-- The output directory (`output_dir = "videos"`, line 58). -/
def output_dir : String := "videos"

/-- `download_video` (lines 136-168): fetches the binary content and writes it
to `os.path.join(output_dir, video_id + ".mp4")`, returning that path. -/
def download_video (svc : RemoteService) (video_id : String) : Except Err String :=
  let output_file_path := output_dir ++ "/" ++ video_id ++ ".mp4"
  match svc.download_content video_id with
  | Except.error e => Except.error e
  | Except.ok _ => Except.ok output_file_path

/-- The pipeline stages invoked by `main`, recorded in invocation order. -/
inductive Stage where
  | submit
  | poll
  | download
deriving DecidableEq, Repr

/-- The outcome reported by `main`: the success report (lines 187-191), the
failure report (lines 192-202), or the catch-all error report (lines
204-211). -/
inductive Outcome where
  | pipelineComplete (video_id : String) (output_path : String)
  | pipelineFailed (final_status : String)
  | errorCaught (e : Err)
deriving DecidableEq, Repr

/-- What a terminating run of `main` produces: the reported outcome and the
process exit status.  The script never calls `sys.exit`, so every path falls
off the end of `main` and the process exits with status 0. -/
structure MainResult where
  outcome : Outcome
  exit_code : Nat
deriving DecidableEq, Repr

/-- `main` (lines 171-211): submit, poll, and download only when the final
status is `"completed"`; every stage error is caught by the top-level
`except` block.  First component: `none` when the polling loop diverges.
Second component: the stages that were invoked, in order. -/
def main (svc : RemoteService) (fuel : Nat) : Option MainResult × List Stage :=
  match generate_video svc with
  | Except.error e => (some ⟨Outcome.errorCaught e, 0⟩, [Stage.submit])
  | Except.ok video =>
    match (wait_for_completion svc fuel video.id).1 with
    | none => (none, [Stage.submit, Stage.poll])
    | some (Except.error e) => (some ⟨Outcome.errorCaught e, 0⟩, [Stage.submit, Stage.poll])
    | some (Except.ok completed_video) =>
      if completed_video.status = "completed" then
        match download_video svc video.id with
        | Except.error e =>
          (some ⟨Outcome.errorCaught e, 0⟩, [Stage.submit, Stage.poll, Stage.download])
        | Except.ok output_path =>
          (some ⟨Outcome.pipelineComplete video.id output_path, 0⟩,
            [Stage.submit, Stage.poll, Stage.download])
      else
        (some ⟨Outcome.pipelineFailed completed_video.status, 0⟩, [Stage.submit, Stage.poll])

/-- The environment variables read at module load (lines 34-36). -/
structure Env where
  azure_api_key : Option String
  azure_resource_name : Option String
  azure_model_name : Option String

/-- Python truthiness of an `os.getenv` result: `None` and the empty string
are falsy. -/
def truthy : Option String → Bool
  | none => false
  | some s => !(s == "")

/-- The validated configuration built at module load (lines 34-48). -/
structure Config where
  api_key : String
  resource_name : String
  model_name : String
deriving DecidableEq, Repr

/-- The message of the `ValueError` raised on missing configuration
(lines 39-42). -/
def configErrorMsg : String :=
  "Missing required environment variables. Please copy .env.sample to .env and populate with your values."

/-- The module-level configuration check (lines 38-42): if any of the three
environment variables is missing (falsy), a `ValueError` — the spec's
`ConfigurationError` — is raised before the client is constructed. -/
def loadConfig (env : Env) : Except Err Config :=
  if !truthy env.azure_api_key || !truthy env.azure_resource_name
      || !truthy env.azure_model_name then
    Except.error (Err.configurationError configErrorMsg)
  else
    Except.ok
      { api_key := env.azure_api_key.getD ""
        resource_name := env.azure_resource_name.getD ""
        model_name := env.azure_model_name.getD "" }

/-- The whole script run: configuration is loaded at module import, before any
remote call; a configuration error escapes uncaught (the `try` block only
wraps `main`'s body), and otherwise `main` runs.  The `List Stage` component
records every stage that performed remote interaction. -/
def runProgram (env : Env) (svc : RemoteService) (fuel : Nat) :
    Option (Except Err MainResult) × List Stage :=
  match loadConfig env with
  | Except.error e => (some (Except.error e), [])
  | Except.ok _ =>
    let r := main svc fuel
    (r.1.map Except.ok, r.2)

/-! ## Concrete services used to exercise the pipeline -/

/-- A queued snapshot for job `abc123`. -/
def demoQueued : Video := { id := "abc123", status := "queued" }

/-- A completed snapshot for job `abc123`. -/
def demoCompleted : Video := { id := "abc123", status := "completed" }

/-- A remote service that reports `queued` twice and then `completed`. -/
def demoSvc : RemoteService :=
  { create := Except.ok demoQueued
    retrieve := fun _ n => if n < 2 then Except.ok demoQueued else Except.ok demoCompleted
    download_content := fun _ => Except.ok () }

/-- An unresponsive remote service: every retrieval reports `queued`. -/
def stuckSvc : RemoteService :=
  { create := Except.ok demoQueued
    retrieve := fun _ _ => Except.ok demoQueued
    download_content := fun _ => Except.ok () }

/-- A remote service whose very first retrieval already reports `completed`. -/
def instantSvc : RemoteService :=
  { create := Except.ok demoQueued
    retrieve := fun _ _ => Except.ok demoCompleted
    download_content := fun _ => Except.ok () }

/-- A snapshot with an empty id and an already-terminal status, as an
adversarial creation response. -/
def bogusVideo : Video := { id := "", status := "completed" }

/-- A remote service whose creation endpoint answers with `bogusVideo`. -/
def bogusSvc : RemoteService :=
  { create := Except.ok bogusVideo
    retrieve := fun _ _ => Except.ok bogusVideo
    download_content := fun _ => Except.ok () }

/-- The error with which a rejecting remote service fails creation. -/
def requestErr : Err := Err.requestError "invalid duration"

/-- A remote service that rejects the creation request. -/
def rejectSvc : RemoteService :=
  { create := Except.error requestErr
    retrieve := fun _ _ => Except.ok demoQueued
    download_content := fun _ => Except.ok () }

/-- An environment with the credential missing. -/
def envMissingKey : Env :=
  { azure_api_key := none
    azure_resource_name := some "myresource.openai.azure.com"
    azure_model_name := some "sora-2" }

/-! ## Helper lemmas about the polling loop -/

lemma loopBody_eq_none_iff (svc : RemoteService) (video_id : String) (v : Video) (k : Nat) :
    loopBody svc video_id v k = none ↔ v.status ∈ terminalStatuses := by
  unfold loopBody
  by_cases h : v.status ∈ terminalStatuses
  · simp [h]
  · simp only [h, if_false, iff_false]
    cases svc.retrieve video_id k <;> simp

lemma loopBody_cases (svc : RemoteService) (video_id : String) (v : Video) (k : Nat) :
    loopBody svc video_id v k = none ∨
    ∃ x, loopBody svc video_id v k = some (x, [Event.sleep poll_interval, Event.retrieve]) := by
  unfold loopBody
  by_cases h : v.status ∈ terminalStatuses
  · left
    simp [h]
  · right
    rcases hr : svc.retrieve video_id k with e | v'
    · exact ⟨Except.error e, by simp [h, hr]⟩
    · exact ⟨Except.ok v', by simp [h, hr]⟩

lemma pollLoop_final_terminal (svc : RemoteService) (video_id : String) :
    ∀ fuel v k w, (pollLoop svc video_id fuel v k).1 = some (Except.ok w) →
      w.status ∈ terminalStatuses := by
  intro fuel
  induction fuel with
  | zero =>
    intro v k w h
    rw [pollLoop] at h
    rcases loopBody_cases svc video_id v k with hb | ⟨x, hb⟩
    · rw [hb] at h
      simp at h
      subst h
      exact (loopBody_eq_none_iff svc video_id v k).mp hb
    · rw [hb] at h
      cases x <;> simp at h
  | succ fuel' ih =>
    intro v k w h
    rw [pollLoop] at h
    rcases loopBody_cases svc video_id v k with hb | ⟨x, hb⟩
    · rw [hb] at h
      simp at h
      subst h
      exact (loopBody_eq_none_iff svc video_id v k).mp hb
    · rw [hb] at h
      rcases x with e | v' <;> simp at h
      exact ih v' (k + 1) w h

lemma countRetrieves_append (a b : List Event) :
    countRetrieves (a ++ b) = countRetrieves a + countRetrieves b := by
  simp [countRetrieves, List.filter_append]

lemma countSleeps_append (a b : List Event) :
    countSleeps (a ++ b) = countSleeps a + countSleeps b := by
  simp [countSleeps, List.filter_append]

lemma pollLoop_counts (svc : RemoteService) (video_id : String) :
    ∀ fuel v k, countRetrieves (pollLoop svc video_id fuel v k).2 =
      countSleeps (pollLoop svc video_id fuel v k).2 := by
  intro fuel
  induction fuel with
  | zero =>
    intro v k
    rw [pollLoop]
    rcases loopBody_cases svc video_id v k with hb | ⟨x, hb⟩
    · rw [hb]
      rfl
    · rw [hb]
      rcases x with e | v' <;> rfl
  | succ fuel' ih =>
    intro v k
    rw [pollLoop]
    rcases loopBody_cases svc video_id v k with hb | ⟨x, hb⟩
    · rw [hb]
      rfl
    · rw [hb]
      rcases x with e | v'
      · rfl
      · show countRetrieves
            ([Event.sleep poll_interval, Event.retrieve] ++ (pollLoop svc video_id fuel' v' (k + 1)).2) =
          countSleeps
            ([Event.sleep poll_interval, Event.retrieve] ++ (pollLoop svc video_id fuel' v' (k + 1)).2)
        rw [countRetrieves_append, countSleeps_append, ih v' (k + 1)]
        rfl

lemma pollLoop_stuck (svc : RemoteService) (video_id : String)
    (h : ∀ n, ∃ v, svc.retrieve video_id n = Except.ok v ∧ v.status ∉ terminalStatuses) :
    ∀ fuel v k, v.status ∉ terminalStatuses → (pollLoop svc video_id fuel v k).1 = none := by
  intro fuel
  induction fuel with
  | zero =>
    intro v k hv
    rw [pollLoop]
    rcases h k with ⟨v', hr, hv'⟩
    simp [loopBody, hv, hr]
  | succ fuel' ih =>
    intro v k hv
    rw [pollLoop]
    rcases h k with ⟨v', hr, hv'⟩
    simp only [loopBody, hv, if_false, hr]
    exact ih v' (k + 1) hv'

/-! ## Claim theorems -/

/-- Claim C1: every Job snapshot returned by `wait_for_completion` has a
status in the terminal set `{"completed", "failed", "cancelled"}`; the poller
never returns a snapshot with a non-terminal status. -/
theorem claim_C1_poller_returns_terminal (svc : RemoteService) (fuel : Nat)
    (video_id : String) (v : Video)
    (h : (wait_for_completion svc fuel video_id).1 = some (Except.ok v)) :
    v.status ∈ terminalStatuses := by
  unfold wait_for_completion at h
  rcases hr : svc.retrieve video_id 0 with e | v0 <;> rw [hr] at h
  · simp at h
  · exact pollLoop_final_terminal svc video_id fuel v0 1 v h

/-- Witness for C1: a service that reports `queued` twice and then
`completed` makes the poller return the completed snapshot. -/
theorem claim_C1_poller_returns_terminal_witness :
    demoCompleted.status ∈ terminalStatuses :=
  claim_C1_poller_returns_terminal demoSvc 5 "abc123" demoCompleted (by decide)

/-- Counterexample to C3 as stated: a non-exiting iteration of the polling
loop performs the events `[sleep 10, retrieve]` — the suspension comes first
and the retrieval second, not a retrieval followed by a suspension. -/
theorem claim_C3_counterexample :
    loopBody demoSvc "abc123" demoQueued 1 =
      some (Except.ok demoQueued, [Event.sleep 10, Event.retrieve]) ∧
    [Event.sleep 10, Event.retrieve] ≠ [Event.retrieve, Event.sleep 10] := by
  constructor
  · decide
  · decide

/-- Claim C3 (amended): every iteration of the poller's loop either exits
because the current status is terminal, or performs exactly one fixed
10-time-unit suspension followed by exactly one remote status retrieval, in
that order. -/
theorem claim_C3_loop_iteration (svc : RemoteService) (video_id : String)
    (v : Video) (k : Nat) :
    (v.status ∈ terminalStatuses → loopBody svc video_id v k = none) ∧
    (v.status ∉ terminalStatuses → ∀ v', svc.retrieve video_id k = Except.ok v' →
      loopBody svc video_id v k =
        some (Except.ok v', [Event.sleep 10, Event.retrieve])) := by
  constructor
  · intro h
    simp [loopBody, h]
  · intro h v' hr
    simp [loopBody, h, hr, poll_interval]

/-- Witness for the amended C3: one exiting and one non-exiting iteration. -/
theorem claim_C3_loop_iteration_witness :
    loopBody demoSvc "abc123" demoCompleted 3 = none ∧
    loopBody demoSvc "abc123" demoQueued 1 =
      some (Except.ok demoQueued, [Event.sleep 10, Event.retrieve]) :=
  ⟨(claim_C3_loop_iteration demoSvc "abc123" demoCompleted 3).1 (by decide),
   (claim_C3_loop_iteration demoSvc "abc123" demoQueued 1).2 (by decide) demoQueued rfl⟩

/-- Claim C4: in every run of the poller — terminating, raising, or cut off
at any fuel — the event trace begins with a status retrieval, so at least one
retrieval precedes the first sleep. -/
theorem claim_C4_first_retrieval_before_sleep (svc : RemoteService) (fuel : Nat)
    (video_id : String) :
    ∃ rest, (wait_for_completion svc fuel video_id).2 = Event.retrieve :: rest := by
  unfold wait_for_completion
  rcases hr : svc.retrieve video_id 0 with e | v0
  · exact ⟨[], rfl⟩
  · exact ⟨(pollLoop svc video_id fuel v0 1).2, rfl⟩

/-- Claim C5: the poller has no iteration bound or timeout — against a
service whose retrievals all succeed with a non-terminal status, no amount of
fuel makes the loop terminate; and whenever a run does return a snapshot, its
status is terminal. -/
theorem claim_C5_unbounded_polling (svc : RemoteService) (video_id : String) :
    ((∀ n, ∃ v, svc.retrieve video_id n = Except.ok v ∧ v.status ∉ terminalStatuses) →
      ∀ fuel, (wait_for_completion svc fuel video_id).1 = none) ∧
    (∀ fuel v, (wait_for_completion svc fuel video_id).1 = some (Except.ok v) →
      v.status ∈ terminalStatuses) := by
  constructor
  · intro h fuel
    unfold wait_for_completion
    rcases h 0 with ⟨v0, hr, hv0⟩
    rw [hr]
    exact pollLoop_stuck svc video_id h fuel v0 1 hv0
  · intro fuel v h
    unfold wait_for_completion at h
    rcases hr : svc.retrieve video_id 0 with e | v0 <;> rw [hr] at h
    · simp at h
    · exact pollLoop_final_terminal svc video_id fuel v0 1 v h

/-- Witness for C5: the always-`queued` service defeats any fuel, while the
demo service terminates with a terminal status. -/
theorem claim_C5_unbounded_polling_witness :
    (wait_for_completion stuckSvc 42 "abc123").1 = none ∧
    demoCompleted.status ∈ terminalStatuses :=
  ⟨(claim_C5_unbounded_polling stuckSvc "abc123").1
      (fun _ => ⟨demoQueued, rfl, by decide⟩) 42,
   (claim_C5_unbounded_polling demoSvc "abc123").2 5 demoCompleted (by decide)⟩

/-- Claim C10: in every terminating run of the poller the number of remote
retrievals is exactly one more than the number of sleeps; and when the very
first retrieval already reports a terminal status, the poller performs
exactly one retrieval and no sleep. -/
theorem claim_C10_retrieval_sleep_counts (svc : RemoteService) (fuel : Nat)
    (video_id : String) :
    (∀ v, (wait_for_completion svc fuel video_id).1 = some (Except.ok v) →
      countRetrieves (wait_for_completion svc fuel video_id).2 =
        countSleeps (wait_for_completion svc fuel video_id).2 + 1) ∧
    (∀ v0, svc.retrieve video_id 0 = Except.ok v0 → v0.status ∈ terminalStatuses →
      wait_for_completion svc fuel video_id = (some (Except.ok v0), [Event.retrieve])) := by
  constructor
  · intro v _
    unfold wait_for_completion
    rcases hr : svc.retrieve video_id 0 with e | v0
    · rfl
    · show countRetrieves (Event.retrieve :: (pollLoop svc video_id fuel v0 1).2) =
        countSleeps (Event.retrieve :: (pollLoop svc video_id fuel v0 1).2) + 1
      have hc := pollLoop_counts svc video_id fuel v0 1
      simp [countRetrieves, countSleeps, isRetrieve, isSleep] at hc ⊢
      omega
  · intro v0 hr ht
    unfold wait_for_completion
    rw [hr]
    have hp : pollLoop svc video_id fuel v0 1 = (some (Except.ok v0), []) := by
      rw [pollLoop, (loopBody_eq_none_iff svc video_id v0 1).mpr ht]
    show ((pollLoop svc video_id fuel v0 1).1,
      Event.retrieve :: (pollLoop svc video_id fuel v0 1).2) = (some (Except.ok v0), [Event.retrieve])
    rw [hp]

/-- Witness for C10: a service whose first retrieval reports `completed`
yields exactly one retrieval and no sleep. -/
theorem claim_C10_retrieval_sleep_counts_witness :
    wait_for_completion instantSvc 7 "abc123" =
      (some (Except.ok demoCompleted), [Event.retrieve]) ∧
    countRetrieves (wait_for_completion instantSvc 7 "abc123").2 =
      countSleeps (wait_for_completion instantSvc 7 "abc123").2 + 1 :=
  ⟨(claim_C10_retrieval_sleep_counts instantSvc 7 "abc123").2 demoCompleted rfl (by decide),
   (claim_C10_retrieval_sleep_counts instantSvc 7 "abc123").1 demoCompleted (by decide)⟩

/-! ### Equations characterizing `main` on each control path -/

lemma main_create_error (svc : RemoteService) (fuel : Nat) (e : Err)
    (hc : generate_video svc = Except.error e) :
    main svc fuel = (some ⟨Outcome.errorCaught e, 0⟩, [Stage.submit]) := by
  simp only [main, hc]

lemma main_poll_none (svc : RemoteService) (fuel : Nat) (video : Video)
    (hc : generate_video svc = Except.ok video)
    (hw : (wait_for_completion svc fuel video.id).1 = none) :
    main svc fuel = (none, [Stage.submit, Stage.poll]) := by
  simp only [main, hc, hw]

lemma main_poll_error (svc : RemoteService) (fuel : Nat) (video : Video) (e : Err)
    (hc : generate_video svc = Except.ok video)
    (hw : (wait_for_completion svc fuel video.id).1 = some (Except.error e)) :
    main svc fuel = (some ⟨Outcome.errorCaught e, 0⟩, [Stage.submit, Stage.poll]) := by
  simp only [main, hc, hw]

lemma main_not_completed (svc : RemoteService) (fuel : Nat) (video cv : Video)
    (hc : generate_video svc = Except.ok video)
    (hw : (wait_for_completion svc fuel video.id).1 = some (Except.ok cv))
    (hst : ¬cv.status = "completed") :
    main svc fuel =
      (some ⟨Outcome.pipelineFailed cv.status, 0⟩, [Stage.submit, Stage.poll]) := by
  simp only [main, hc, hw, if_neg hst]

lemma main_completed_dl_error (svc : RemoteService) (fuel : Nat) (video cv : Video)
    (e : Err) (hc : generate_video svc = Except.ok video)
    (hw : (wait_for_completion svc fuel video.id).1 = some (Except.ok cv))
    (hst : cv.status = "completed")
    (hd : download_video svc video.id = Except.error e) :
    main svc fuel =
      (some ⟨Outcome.errorCaught e, 0⟩, [Stage.submit, Stage.poll, Stage.download]) := by
  simp only [main, hc, hw, if_pos hst, hd]

lemma main_completed_dl_ok (svc : RemoteService) (fuel : Nat) (video cv : Video)
    (p : String) (hc : generate_video svc = Except.ok video)
    (hw : (wait_for_completion svc fuel video.id).1 = some (Except.ok cv))
    (hst : cv.status = "completed")
    (hd : download_video svc video.id = Except.ok p) :
    main svc fuel =
      (some ⟨Outcome.pipelineComplete video.id p, 0⟩,
        [Stage.submit, Stage.poll, Stage.download]) := by
  simp only [main, hc, hw, if_pos hst, hd]

/-- Claim C2: `main` invokes the downloader exactly when the poller's final
status is `"completed"`; when the final status is `failed` or `cancelled` (or
the run errors or never finishes polling), the download stage is never
invoked. -/
theorem claim_C2_download_iff_completed (svc : RemoteService) (fuel : Nat) :
    Stage.download ∈ (main svc fuel).2 ↔
      ∃ video v, generate_video svc = Except.ok video ∧
        (wait_for_completion svc fuel video.id).1 = some (Except.ok v) ∧
        v.status = "completed" := by
  rcases hc : generate_video svc with e | video
  · rw [main_create_error svc fuel e hc]
    constructor
    · intro h
      simp at h
    · rintro ⟨video', v, heq, hw', hst⟩
      simp at heq
  · rcases hw : (wait_for_completion svc fuel video.id).1 with _ | e | cv
    · rw [main_poll_none svc fuel video hc hw]
      constructor
      · intro h
        simp at h
      · rintro ⟨video', v, heq, hw', hst⟩
        injection heq with heq'
        subst heq'
        rw [hw] at hw'
        simp at hw'
    · rw [main_poll_error svc fuel video e hc hw]
      constructor
      · intro h
        simp at h
      · rintro ⟨video', v, heq, hw', hst⟩
        injection heq with heq'
        subst heq'
        rw [hw] at hw'
        simp at hw'
    · by_cases hst : cv.status = "completed"
      · rcases hd : download_video svc video.id with e | p
        · rw [main_completed_dl_error svc fuel video cv e hc hw hst hd]
          constructor
          · intro _
            exact ⟨video, cv, rfl, hw, hst⟩
          · intro _
            simp
        · rw [main_completed_dl_ok svc fuel video cv p hc hw hst hd]
          constructor
          · intro _
            exact ⟨video, cv, rfl, hw, hst⟩
          · intro _
            simp
      · rw [main_not_completed svc fuel video cv hc hw hst]
        constructor
        · intro h
          simp at h
        · rintro ⟨video', v, heq, hw', hst'⟩
          injection heq with heq'
          subst heq'
          rw [hw] at hw'
          injection hw' with h1
          injection h1 with h2
          subst h2
          exact absurd hst' hst

/-- Claim C6: if any required environment variable is absent, the run fails
with the `ConfigurationError` and its remote-interaction trace is empty — no
stage is ever invoked. -/
theorem claim_C6_missing_config_fails_fast (env : Env) (svc : RemoteService)
    (fuel : Nat)
    (h : env.azure_api_key = none ∨ env.azure_resource_name = none ∨
      env.azure_model_name = none) :
    runProgram env svc fuel =
      (some (Except.error (Err.configurationError configErrorMsg)), []) := by
  have hcfg : loadConfig env = Except.error (Err.configurationError configErrorMsg) := by
    unfold loadConfig
    rcases h with h | h | h <;> rw [h] <;> simp [truthy]
  unfold runProgram
  rw [hcfg]

/-- Witness for C6: with the credential unset, the program reports the
configuration error and performs no remote interaction. -/
theorem claim_C6_missing_config_fails_fast_witness :
    runProgram envMissingKey demoSvc 3 =
      (some (Except.error (Err.configurationError configErrorMsg)), []) :=
  claim_C6_missing_config_fails_fast envMissingKey demoSvc 3 (Or.inl rfl)

/-- Counterexample to C7 as stated: against a remote service whose creation
endpoint answers with an empty id and an already-terminal status, the
submitter returns that snapshot unchanged — an outcome the claim rules out
(no RequestError, yet the id is empty and the initial status terminal). -/
theorem claim_C7_counterexample :
    generate_video bogusSvc = Except.ok bogusVideo ∧
    bogusVideo.id = "" ∧ bogusVideo.status ∈ terminalStatuses := by
  refine ⟨rfl, rfl, ?_⟩
  decide

/-- Claim C7 (amended): the submitter performs no local validation — it
returns exactly the Job snapshot the remote creation call produced, whatever
its id and status, or fails with exactly the error that call raised. -/
theorem claim_C7_submitter_passthrough (svc : RemoteService) :
    (∀ v, svc.create = Except.ok v → generate_video svc = Except.ok v) ∧
    (∀ e, svc.create = Except.error e → generate_video svc = Except.error e) := by
  constructor
  · intro v h
    unfold generate_video
    exact h
  · intro e h
    unfold generate_video
    exact h

/-- Witness for the amended C7: a snapshot is passed through unchanged and a
creation error propagates unchanged. -/
theorem claim_C7_submitter_passthrough_witness :
    generate_video bogusSvc = Except.ok bogusVideo ∧
    generate_video rejectSvc = Except.error requestErr :=
  ⟨(claim_C7_submitter_passthrough bogusSvc).1 bogusVideo rfl,
   (claim_C7_submitter_passthrough rejectSvc).2 requestErr rfl⟩

/-- Claim C8: when the content fetch succeeds, the downloader returns the
local path `<output_dir>/<job_id>.mp4`. -/
theorem claim_C8_download_path (svc : RemoteService) (video_id : String)
    (h : svc.download_content video_id = Except.ok ()) :
    download_video svc video_id =
      Except.ok (output_dir ++ "/" ++ video_id ++ ".mp4") := by
  unfold download_video
  rw [h]

/-- Witness for C8: for job id `abc123` and the default output directory the
returned path is exactly `videos/abc123.mp4`. -/
theorem claim_C8_download_path_witness :
    download_video demoSvc "abc123" = Except.ok "videos/abc123.mp4" :=
  claim_C8_download_path demoSvc "abc123" rfl

/-- Claim C9: every error raised by a pipeline stage — submission, polling,
or download — is caught by `main`'s top-level handler and reported as an
outcome, and every terminating run of `main` exits with status 0. -/
theorem claim_C9_main_catches_and_exits_zero (svc : RemoteService) (fuel : Nat) :
    (∀ m, (main svc fuel).1 = some m → m.exit_code = 0) ∧
    (∀ e, generate_video svc = Except.error e →
      (main svc fuel).1 = some ⟨Outcome.errorCaught e, 0⟩) ∧
    (∀ video e, generate_video svc = Except.ok video →
      (wait_for_completion svc fuel video.id).1 = some (Except.error e) →
      (main svc fuel).1 = some ⟨Outcome.errorCaught e, 0⟩) ∧
    (∀ video w e, generate_video svc = Except.ok video →
      (wait_for_completion svc fuel video.id).1 = some (Except.ok w) →
      w.status = "completed" → download_video svc video.id = Except.error e →
      (main svc fuel).1 = some ⟨Outcome.errorCaught e, 0⟩) := by
  refine ⟨?_, ?_, ?_, ?_⟩
  · intro m hm
    rcases hc : generate_video svc with e | video
    · rw [main_create_error svc fuel e hc] at hm
      simp at hm
      simp [← hm]
    · rcases hw : (wait_for_completion svc fuel video.id).1 with _ | e | cv
      · rw [main_poll_none svc fuel video hc hw] at hm
        simp at hm
      · rw [main_poll_error svc fuel video e hc hw] at hm
        simp at hm
        simp [← hm]
      · by_cases hst : cv.status = "completed"
        · rcases hd : download_video svc video.id with e | p
          · rw [main_completed_dl_error svc fuel video cv e hc hw hst hd] at hm
            simp at hm
            simp [← hm]
          · rw [main_completed_dl_ok svc fuel video cv p hc hw hst hd] at hm
            simp at hm
            simp [← hm]
        · rw [main_not_completed svc fuel video cv hc hw hst] at hm
          simp at hm
          simp [← hm]
  · intro e hc
    rw [main_create_error svc fuel e hc]
  · intro video e hc hw
    rw [main_poll_error svc fuel video e hc hw]
  · intro video w e hc hw hst hd
    rw [main_completed_dl_error svc fuel video w e hc hw hst hd]

/-- Witness for C9: a rejected creation request is caught and reported with
exit status 0. -/
theorem claim_C9_main_catches_and_exits_zero_witness :
    (main rejectSvc 1).1 = some ⟨Outcome.errorCaught requestErr, 0⟩ ∧
    MainResult.exit_code ⟨Outcome.errorCaught requestErr, 0⟩ = 0 :=
  ⟨(claim_C9_main_catches_and_exits_zero rejectSvc 1).2.1 requestErr rfl,
   (claim_C9_main_catches_and_exits_zero rejectSvc 1).1
     ⟨Outcome.errorCaught requestErr, 0⟩
     ((claim_C9_main_catches_and_exits_zero rejectSvc 1).2.1 requestErr rfl)⟩

end Sora2
